import Mathlib

/-!
Shallow embedding of the USB/IP server in `src/src/lib.rs` (crate `usbip`).

The per-connection handler loop `UsbIpServer::handler`, the mutators
`add_device` / `remove_device`, and the wire encodings are translated from
the source.  The socket is modelled as a byte stream: a list of bytes
followed by a tail that is either a clean EOF or an I/O error of some kind,
matching tokio's `read_exact` behaviour (a read past the end of a
cleanly-closed stream yields `ErrorKind::UnexpectedEof`).

Code of the repository that lives in modules missing from `src/`
(`device.rs`: `find_ep`, `write_dev`, `write_dev_with_interfaces`,
`handle_urb`) is modelled from the spec and marked as such in its doc
comment.
-/

set_option maxRecDepth 100000

namespace UsbIp

/-- Kind of a failed socket read: tokio's `ErrorKind::UnexpectedEof`, or any
other error kind (abstracted by a number). -/
inductive ErrKind : Type
  | unexpectedEof : ErrKind
  | otherKind (k : Nat) : ErrKind
deriving DecidableEq, Repr

/-- What lies past the buffered bytes of the mock socket: a clean EOF, or an
I/O error of the given kind. -/
inductive TailK : Type
  | eofTail : TailK
  | errTail (k : Nat) : TailK
deriving DecidableEq, Repr

/-- The readable side of the socket: buffered bytes, then `tail`. -/
structure ByteStream : Type where
  data : List Nat
  tail : TailK
deriving DecidableEq, Repr

/-- Embedding of `tokio::io::AsyncReadExt::read_exact` on the mock stream:
returns `n` bytes, or the error produced when the stream ends first. -/
def readExact : ByteStream → Nat → Except ErrKind (List Nat × ByteStream)
  | s, 0 => .ok ([], s)
  | s, n + 1 =>
    match s with
    | ⟨b :: rest, t⟩ =>
      match readExact ⟨rest, t⟩ n with
      | .ok (bs, s') => .ok (b :: bs, s')
      | .error e => .error e
    | ⟨[], .eofTail⟩ => .error .unexpectedEof
    | ⟨[], .errTail k⟩ => .error (.otherKind k)

/-- Big-endian interpretation of a 4-byte list (the value `read_u32`
assembles). -/
def u32OfBytes (l : List Nat) : Nat :=
  l.foldl (fun acc b => acc * 256 + b) 0

/-- Embedding of `tokio::io::AsyncReadExt::read_u32` (big-endian). -/
def readU32 (s : ByteStream) : Except ErrKind (Nat × ByteStream) :=
  (readExact s 4).map (fun p => (u32OfBytes p.1, p.2))

/-- Big-endian bytes of a `u32`, as written by `write_u32`. -/
def u32Bytes (n : Nat) : List Nat :=
  [n / 2 ^ 24 % 256, n / 2 ^ 16 % 256, n / 2 ^ 8 % 256, n % 256]

/-- Big-endian bytes of a `u16`. -/
def u16Bytes (n : Nat) : List Nat :=
  [n / 2 ^ 8 % 256, n % 256]

/-- Embedding of `Vec::resize(n, 0)` on a byte vector: truncate to `n`
bytes, or pad on the right with zeros up to `n` bytes. -/
def bytesResize (l : List Nat) (n : Nat) : List Nat :=
  l.take n ++ List.replicate (n - l.length) 0

/-- Embedding of `UsbEndpoint` (fields used by the handler loop and the devlist reply). -/
structure UsbEndpoint : Type where
  address : Nat
  attributes : Nat
  max_packet_size : Nat
  interval : Nat
deriving DecidableEq, Repr

/-- Embedding of `UsbInterface` (fields used by the handler loop and the devlist reply). -/
structure UsbInterface : Type where
  interface_class : Nat
  interface_subclass : Nat
  interface_protocol : Nat
  endpoints : List UsbEndpoint
deriving DecidableEq, Repr

/-- Embedding of `UsbDevice`.  Identity and descriptor fields are as in the source
(strings are modelled by their UTF-8 byte lists).  `urb` models the
device's URB dispatch `UsbDevice::handle_urb` (its module is not under
`src/`), as an abstract handler in the sense of spec §4.4/§4.5: given the
resolved endpoint, the owning interface index (none for endpoint 0), the
8 setup bytes and the OUT payload, it produces the IN response bytes or an
error that the connection loop propagates. -/
structure UsbDevice : Type where
  path : List Nat
  bus_id : List Nat
  bus_num : Nat
  dev_num : Nat
  speed : Nat
  vendor_id : Nat
  product_id : Nat
  device_bcd : Nat
  device_class : Nat
  device_subclass : Nat
  device_protocol : Nat
  configuration_value : Nat
  num_configurations : Nat
  ep0_in : UsbEndpoint
  ep0_out : UsbEndpoint
  interfaces : List UsbInterface
  urb : UsbEndpoint → Option Nat → List Nat → List Nat → Except ErrKind (List Nat)

/-- Search the interface list for the first interface owning an endpoint
with wire address `addr`, returning the endpoint and the interface index. -/
def findEpIn (addr : Nat) : List UsbInterface → Nat → Option (UsbEndpoint × Option Nat)
  | [], _ => none
  | i :: rest, idx =>
    match i.endpoints.find? (fun e => e.address == addr) with
    | some e => some (e, some idx)
    | none => findEpIn addr rest (idx + 1)

/-- Modelled from the spec: `UsbDevice::find_ep` (in `device.rs`, not under
`src/`).  Spec §4.2: endpoint lookup by wire address, direction bit
included; endpoint 0 (addresses `0x80` and `0x00`) returns the synthetic
ep0 descriptors without an owning interface; spec §8: otherwise the
resolved interface is the interface whose endpoint list contains the
address. -/
def UsbDevice.find_ep (d : UsbDevice) (addr : Nat) : Option (UsbEndpoint × Option Nat) :=
  if addr == 0x80 then some (d.ep0_in, none)
  else if addr == 0x00 then some (d.ep0_out, none)
  else findEpIn addr d.interfaces 0

/-- Modelled from the spec: `UsbDevice::write_dev` (in `device.rs`, not
under `src/`).  Spec §4.1 device summary: path (256 bytes, zero-padded),
bus_id (32 bytes, zero-padded), bus_num, dev_num, speed as u32, idVendor,
idProduct, bcdDevice as u16, then six u8 fields, 312 bytes in total. -/
def write_dev (d : UsbDevice) : List Nat :=
  bytesResize d.path 256 ++ bytesResize d.bus_id 32 ++
  u32Bytes d.bus_num ++ u32Bytes d.dev_num ++ u32Bytes d.speed ++
  u16Bytes d.vendor_id ++ u16Bytes d.product_id ++ u16Bytes d.device_bcd ++
  [d.device_class % 256, d.device_subclass % 256, d.device_protocol % 256,
   d.configuration_value % 256, d.num_configurations % 256, d.interfaces.length % 256]

/-- Modelled from the spec: `UsbDevice::write_dev_with_interfaces` (in
`device.rs`, not under `src/`).  Spec §4.1 interface summary: class,
subclass, protocol, one reserved zero byte per interface, appended to the
device summary. -/
def write_dev_with_interfaces (d : UsbDevice) : List Nat :=
  write_dev d ++
  d.interfaces.flatMap (fun i =>
    [i.interface_class % 256, i.interface_subclass % 256, i.interface_protocol % 256, 0])

/-- Embedding of `UsbIpServer::add_device` on the device list
(`self.devices.push(device.clone())`, with no duplicate check). -/
def add_device (devs : List UsbDevice) (d : UsbDevice) : List UsbDevice :=
  devs ++ [d]

/-- Embedding of `UsbIpServer::remove_device` on the device list
(`self.devices.retain(|d| d.bus_id != device.bus_id)`). -/
def remove_device (devs : List UsbDevice) (busId : List Nat) : List UsbDevice :=
  devs.filter (fun x => !(x.bus_id == busId))

/-- The bus_id lookup predicate of the OP_REQ_IMPORT arm: the device's
bus_id bytes, resized to exactly 32 bytes with zero padding, compared
bytewise with the 32-byte client field. -/
def busMatch (busid : List Nat) (device : UsbDevice) : Bool :=
  bytesResize device.bus_id 32 == busid

/-- How one iteration of the handler loop ends: continue with output bytes,
a new current import and the rest of the stream; return an I/O error; or
panic (a `unwrap` of `None` in the source). -/
inductive BranchRes : Type
  | next (out : List Nat) (imp : Option UsbDevice) (s : ByteStream) : BranchRes
  | fail (k : ErrKind) : BranchRes
  | panicked : BranchRes

/-- The reads of the CMD_SUBMIT fixed part after the command word:
seq_num, dev_id, direction, ep, transfer_flags, transfer_buffer_length,
start_frame, number_of_packets, interval, then 8 setup bytes. -/
def parseSubmitHead (s : ByteStream) :
    Except ErrKind (Nat × Nat × Nat × Nat × List Nat × ByteStream) :=
  match readU32 s with
  | .error k => .error k
  | .ok (seq_num, s) =>
  match readU32 s with
  | .error k => .error k
  | .ok (_dev_id, s) =>
  match readU32 s with
  | .error k => .error k
  | .ok (direction, s) =>
  match readU32 s with
  | .error k => .error k
  | .ok (ep, s) =>
  match readU32 s with
  | .error k => .error k
  | .ok (_transfer_flags, s) =>
  match readU32 s with
  | .error k => .error k
  | .ok (transfer_buffer_length, s) =>
  match readU32 s with
  | .error k => .error k
  | .ok (_start_frame, s) =>
  match readU32 s with
  | .error k => .error k
  | .ok (_number_of_packets, s) =>
  match readU32 s with
  | .error k => .error k
  | .ok (_interval, s) =>
  match readExact s 8 with
  | .error k => .error k
  | .ok (setup, s) =>
    .ok (seq_num, direction, ep, transfer_buffer_length, setup, s)

/-- The CMD_SUBMIT arm of the handler loop (lib.rs lines 325-399).  The
fixed part is read first; then `current_import_device.unwrap()`; OUT data
is read; then `device.find_ep(real_ep as u8).unwrap()`; then `handle_urb`;
finally the RET_SUBMIT reply is written. -/
def cmdSubmit (imp : Option UsbDevice) (s : ByteStream) : BranchRes :=
  match parseSubmitHead s with
  | .error k => .fail k
  | .ok (seq_num, direction, ep, transfer_buffer_length, setup, s) =>
    match imp with
    | none => .panicked
    | some device =>
      let isOut := direction == 0
      let real_ep := if isOut then ep else ep ||| 0x80
      match (if isOut then readExact s transfer_buffer_length else .ok ([], s)) with
      | .error k => .fail k
      | .ok (out_data, s) =>
        match device.find_ep (real_ep % 256) with
        | none => .panicked
        | some (usb_ep, intf) =>
          match device.urb usb_ep intf setup out_data with
          | .error k => .fail k
          | .ok resp =>
            let actual_length := if isOut then transfer_buffer_length else resp.length
            .next (u32Bytes 0x3 ++ u32Bytes seq_num ++
                   u32Bytes 0 ++ u32Bytes 0 ++ u32Bytes 0 ++
                   u32Bytes 0 ++
                   u32Bytes actual_length ++
                   u32Bytes 0 ++ u32Bytes 0 ++ u32Bytes 0 ++
                   List.replicate 8 0 ++
                   (if isOut then [] else resp)) imp s

/-- The CMD_UNLINK arm of the handler loop (lib.rs lines 400-421).  Note
that the 24 reserved bytes read from the request are written back into the
RET_UNLINK reply (`socket.write_all(&mut padding)` reuses the read
buffer). -/
def cmdUnlink (imp : Option UsbDevice) (s : ByteStream) : BranchRes :=
  match readU32 s with
  | .error k => .fail k
  | .ok (seq_num, s) =>
  match readU32 s with
  | .error k => .fail k
  | .ok (_dev_id, s) =>
  match readU32 s with
  | .error k => .fail k
  | .ok (_direction, s) =>
  match readU32 s with
  | .error k => .fail k
  | .ok (_ep, s) =>
  match readU32 s with
  | .error k => .fail k
  | .ok (_seq_num_submit, s) =>
  match readExact s 24 with
  | .error k => .fail k
  | .ok (padding, s) =>
    .next (u32Bytes 0x4 ++ u32Bytes seq_num ++
           u32Bytes 0 ++ u32Bytes 0 ++ u32Bytes 0 ++
           u32Bytes 0 ++ padding) imp s

/-- One dispatch on a 4-byte command word (the `match command` of the
handler loop).  An unknown command is logged (`warn!`) and the loop simply
continues with the rest of the stream. -/
def dispatch (devs : List UsbDevice) (imp : Option UsbDevice) (cmd : List Nat)
    (s : ByteStream) : BranchRes :=
  if cmd = [0x01, 0x11, 0x80, 0x05] then
    -- OP_REQ_DEVLIST
    match readU32 s with
    | .error k => .fail k
    | .ok (_status, s) =>
      .next (u32Bytes 0x01110005 ++ u32Bytes 0 ++ u32Bytes (devs.length % 2 ^ 32) ++
             devs.flatMap write_dev_with_interfaces) imp s
  else if cmd = [0x01, 0x11, 0x80, 0x03] then
    -- OP_REQ_IMPORT: current_import_device is reset, then the 32-byte
    -- bus_id field is compared against each device's zero-resized bus_id.
    match readU32 s with
    | .error k => .fail k
    | .ok (_status, s) =>
      match readExact s 32 with
      | .error k => .fail k
      | .ok (bus_id, s) =>
        match devs.find? (busMatch bus_id) with
        | some dev =>
          .next (u32Bytes 0x01110003 ++ u32Bytes 0 ++ write_dev dev) (some dev) s
        | none =>
          .next (u32Bytes 0x01110003 ++ u32Bytes 1) none s
  else if cmd = [0x00, 0x00, 0x00, 0x01] then
    cmdSubmit imp s
  else if cmd = [0x00, 0x00, 0x00, 0x02] then
    cmdUnlink imp s
  else
    .next [] imp s

/-- How a run of the handler loop ends.  `outOfFuel` only means the given
fuel bound was hit, never a verdict about the program. -/
inductive Outcome : Type
  | ok : Outcome
  | ioErr (k : ErrKind) : Outcome
  | panicked : Outcome
  | outOfFuel : Outcome
deriving DecidableEq, Repr

/-- Embedding of `UsbIpServer::handler` (lib.rs lines 264-425) for one connection while
no concurrent mutation is in progress (the pause signal stays clear, so
the check at the top of the loop never blocks; the pause protocol itself
is modelled separately).  Returns the outcome together with all bytes
written to the socket.  A clean EOF on the 4-byte command read returns
`Ok(())`; any other command-read error is returned as `Err`. -/
def handlerLoop (devs : List UsbDevice) :
    Nat → Option UsbDevice → ByteStream → Outcome × List Nat
  | 0, _, _ => (.outOfFuel, [])
  | fuel + 1, imp, s =>
    match readExact s 4 with
    | .error .unexpectedEof => (.ok, [])
    | .error k => (.ioErr k, [])
    | .ok (command, s) =>
      match dispatch devs imp command s with
      | .next out imp' s' =>
        let rest := handlerLoop devs fuel imp' s'
        (rest.1, out ++ rest.2)
      | .fail k => (.ioErr k, [])
      | .panicked => (.panicked, [])

/-!
Interleaving model of the pause protocol, for the quiescence property:
one mutator task running `UsbIpServer::add_device` and one connection task
running the loop head of `UsbIpServer::handler`, over the shared
`control_channel` watch value and `control_barrier`.

The tokio barrier is modelled by its size and its arrival count: a task
arriving increments the count, and a waiting task passes once the count
reaches the size.  `Barrier::new(1)` therefore releases its single arrival
immediately, which is the barrier `UsbIpServer::default()` (and hence
`new_simulated`) installs.

Mutator program counter (`add_device`):
0 `control_channel.send(true)`; 1 arrive at `control_barrier`; 2 blocked in
`control_barrier.wait()`; 3 `self.devices.push(...)`; 4 `control_barrier =
Barrier::new(devices.len() + 1)`; 5 `control_channel.send(false)`; 6 done.

Connection program counter (loop head of `handler`):
0 read `control_channel.borrow()`; 1 arrive at `control_barrier`;
2 blocked in `control_barrier.wait()`; 3 `wait_for(|b| !b)`; 4 read the
next 4-byte command word.
-/

/-- Shared state of the two-task interleaving model of the pause protocol.
`reads` counts command reads done by the connection, and `readsDuringMut`
counts those that happen while the mutator is between passing the barrier
and clearing the pause signal (i.e. while the device list is being
mutated). -/
structure PauseState : Type where
  signal : Bool
  barrierSize : Nat
  arrived : Nat
  devices : Nat
  mutPC : Nat
  connPC : Nat
  reads : Nat
  readsDuringMut : Nat
deriving DecidableEq, Repr

/-- Which task the scheduler runs next. -/
inductive Task : Type
  | mutator : Task
  | conn : Task
deriving DecidableEq, Repr

/-- One step of the mutator task (`add_device`); a blocked task leaves the
state unchanged. -/
def mutStep (st : PauseState) : PauseState :=
  match st.mutPC with
  | 0 => { st with signal := true, mutPC := 1 }
  | 1 => { st with arrived := st.arrived + 1, mutPC := 2 }
  | 2 => if st.barrierSize ≤ st.arrived then { st with mutPC := 3 } else st
  | 3 => { st with devices := st.devices + 1, mutPC := 4 }
  | 4 => { st with barrierSize := st.devices + 1, arrived := 0, mutPC := 5 }
  | 5 => { st with signal := false, mutPC := 6 }
  | _ => st

/-- One step of the connection task (the loop head of `handler`); a blocked
task leaves the state unchanged. -/
def connStep (st : PauseState) : PauseState :=
  match st.connPC with
  | 0 => if st.signal then { st with connPC := 1 } else { st with connPC := 4 }
  | 1 => { st with arrived := st.arrived + 1, connPC := 2 }
  | 2 => if st.barrierSize ≤ st.arrived then { st with connPC := 3 } else st
  | 3 => if st.signal then st else { st with connPC := 4 }
  | 4 =>
    { st with
      connPC := 0,
      reads := st.reads + 1,
      readsDuringMut :=
        if 3 ≤ st.mutPC ∧ st.mutPC ≤ 4 then st.readsDuringMut + 1 else st.readsDuringMut }
  | _ => st

/-- Run a schedule (a list of task choices) from a state. -/
def runSched : List Task → PauseState → PauseState
  | [], st => st
  | t :: rest, st =>
    runSched rest (match t with | .mutator => mutStep st | .conn => connStep st)

/-- Initial state of a `UsbIpServer::default()` / `new_simulated` server
with an empty device list and one live connection at the top of its loop:
pause signal clear, `control_barrier` of size 1, no arrivals. -/
def pauseInit : PauseState :=
  { signal := false, barrierSize := 1, arrived := 0, devices := 0,
    mutPC := 0, connPC := 0, reads := 0, readsDuringMut := 0 }

/-- Error kind a read yields when the stream ends: clean EOF gives
`UnexpectedEof`, an erroring stream gives its own kind. -/
def tailErr : TailK → ErrKind
  | .eofTail => .unexpectedEof
  | .errTail k => .otherKind k

/-- Encoder for a CMD_SUBMIT packet (command word, nine u32 fields, 8 setup
bytes); the OUT payload is appended separately by the callers. -/
def encSubmit (seq_num dev_id direction ep flags tbl sf np iv : Nat)
    (setup : List Nat) : List Nat :=
  [0x00, 0x00, 0x00, 0x01] ++ u32Bytes seq_num ++ u32Bytes dev_id ++
  u32Bytes direction ++ u32Bytes ep ++ u32Bytes flags ++ u32Bytes tbl ++
  u32Bytes sf ++ u32Bytes np ++ u32Bytes iv ++ setup

/-- Encoder for a CMD_UNLINK packet (command word, five u32 fields, 24
reserved bytes). -/
def encUnlink (seq_num dev_id direction ep seq_num_submit : Nat)
    (pad : List Nat) : List Nat :=
  [0x00, 0x00, 0x00, 0x02] ++ u32Bytes seq_num ++ u32Bytes dev_id ++
  u32Bytes direction ++ u32Bytes ep ++ u32Bytes seq_num_submit ++ pad

/-- Encoder for an OP_REQ_IMPORT packet (op header prefix, status field,
32-byte bus_id field). -/
def encImport (status : Nat) (busid : List Nat) : List Nat :=
  [0x01, 0x11, 0x80, 0x03] ++ u32Bytes status ++ busid

/-- Encoder for an OP_REQ_DEVLIST packet (op header prefix, status field). -/
def encDevlist (status : Nat) : List Nat :=
  [0x01, 0x11, 0x80, 0x05] ++ u32Bytes status

/-- Bytes of the OP_REP_DEVLIST reply the handler writes for device list
`devs`. -/
def devlistReply (devs : List UsbDevice) : List Nat :=
  u32Bytes 0x01110005 ++ u32Bytes 0 ++ u32Bytes (devs.length % 2 ^ 32) ++
  devs.flatMap write_dev_with_interfaces

/-- Projection of the device list to its bus_ids. -/
def busIds (devs : List UsbDevice) : List (List Nat) :=
  devs.map (fun d => d.bus_id)

/-- Uniqueness of bus_ids across the device list (spec §3 invariant). -/
def uniqueBusIds (devs : List UsbDevice) : Prop :=
  (busIds devs).Nodup

/-- Concrete device mirroring the repository's test device
(`UsbDevice::new(0)` with one CDC-ACM interface: bulk IN `0x81`, bulk OUT
`0x01`, interrupt IN `0x82`), with an URB handler that answers `[1, 2, 3]`
to every request. -/
def sampleDev : UsbDevice :=
  { path := [0x30], bus_id := [0x30], bus_num := 0, dev_num := 0, speed := 1,
    vendor_id := 0x1234, product_id := 0x5678, device_bcd := 0x0100,
    device_class := 0x02, device_subclass := 0x00, device_protocol := 0x00,
    configuration_value := 1, num_configurations := 1,
    ep0_in := ⟨0x80, 0, 8, 0⟩, ep0_out := ⟨0x00, 0, 8, 0⟩,
    interfaces := [⟨0x02, 0x02, 0x00,
      [⟨0x81, 2, 64, 0⟩, ⟨0x01, 2, 64, 0⟩, ⟨0x82, 3, 8, 10⟩]⟩],
    urb := fun _ _ _ _ => .ok [1, 2, 3] }

/-- A second concrete device sharing `sampleDev`'s bus_id `"0"` but with a
different vendor id. -/
def sampleDevDup : UsbDevice :=
  { sampleDev with vendor_id := 0x4444 }

/-- A third concrete device with the distinct bus_id `"1"`. -/
def sampleDevOther : UsbDevice :=
  { sampleDev with bus_id := [0x31], path := [0x31] }

/-! Helper lemmas about the byte-level reads. -/

/-- Reading exactly the length of a known leading chunk returns that chunk
and leaves the rest of the stream. -/
theorem readExact_append (pre rest : List Nat) (t : TailK) :
    readExact ⟨pre ++ rest, t⟩ pre.length = .ok (pre, ⟨rest, t⟩) := by
  induction pre with
  | nil => rfl
  | cons b bs ih => simp [readExact, ih]

/-- Version of `readExact_append` keyed on a length hypothesis. -/
theorem readExact_exact {pre : List Nat} {n : Nat} (h : pre.length = n)
    (rest : List Nat) (t : TailK) :
    readExact ⟨pre ++ rest, t⟩ n = .ok (pre, ⟨rest, t⟩) := by
  subst h; exact readExact_append pre rest t

/-- Reading exactly all remaining buffered bytes empties the stream. -/
theorem readExact_all {pre : List Nat} {n : Nat} (h : pre.length = n) (t : TailK) :
    readExact ⟨pre, t⟩ n = .ok (pre, ⟨[], t⟩) := by
  have h2 := readExact_exact h [] t
  simpa using h2

/-- A 4-byte read off a stream with at least four buffered bytes. -/
theorem readExact_cons4 (b0 b1 b2 b3 : Nat) (rest : List Nat) (t : TailK) :
    readExact ⟨b0 :: b1 :: b2 :: b3 :: rest, t⟩ 4 =
      .ok ([b0, b1, b2, b3], ⟨rest, t⟩) := rfl

/-- A 4-byte read at a clean EOF yields `UnexpectedEof`. -/
theorem readExact4_nil_eof : readExact ⟨[], .eofTail⟩ 4 = .error .unexpectedEof := rfl

/-- A read that overruns the buffered bytes yields the tail's error. -/
theorem readExact_short (l : List Nat) (n : Nat) (t : TailK) (h : l.length < n) :
    readExact ⟨l, t⟩ n = .error (tailErr t) := by
  induction l generalizing n with
  | nil =>
    cases n with
    | zero => omega
    | succ m => cases t <;> rfl
  | cons b bs ih =>
    cases n with
    | zero => omega
    | succ m =>
      have hm : bs.length < m := by simpa using h
      simp [readExact, ih m hm]

/-- Reading `n` bytes when at least `n` are buffered returns that prefix
and leaves the rest. -/
theorem readExact_take (l : List Nat) (n : Nat) (t : TailK) (h : n ≤ l.length) :
    readExact ⟨l, t⟩ n = .ok (l.take n, ⟨l.drop n, t⟩) := by
  induction n generalizing l with
  | zero => simp [readExact]
  | succ m ih =>
    cases l with
    | nil => simp at h
    | cons b bs =>
      have hm : m ≤ bs.length := by simpa using h
      simp [readExact, ih bs hm]

/-- A u32 read that overruns the buffered bytes yields the tail's error. -/
theorem readU32_short (l : List Nat) (t : TailK) (h : l.length < 4) :
    readU32 ⟨l, t⟩ = .error (tailErr t) := by
  rw [readU32, readExact_short l 4 t h]
  rfl

/-- A u32 read with at least four buffered bytes succeeds. -/
theorem readU32_ok_of_le {l : List Nat} (t : TailK) (h : 4 ≤ l.length) :
    readU32 ⟨l, t⟩ = .ok (u32OfBytes (l.take 4), ⟨l.drop 4, t⟩) := by
  rw [readU32, readExact_take l 4 t h]
  rfl

/-- A u32 read at offset `m` of a buffer that still holds four bytes
there. -/
theorem readU32_drop_ok (d : List Nat) (m : Nat) (t : TailK) (h : m + 4 ≤ d.length) :
    readU32 ⟨d.drop m, t⟩ = .ok (u32OfBytes ((d.drop m).take 4), ⟨d.drop (m + 4), t⟩) := by
  have h4 : 4 ≤ (d.drop m).length := by simp; omega
  rw [readU32_ok_of_le t h4, List.drop_drop]

/-- Round trip of the big-endian u32 encoding. -/
theorem u32OfBytes_u32Bytes (n : Nat) : u32OfBytes (u32Bytes n) = n % 2 ^ 32 := by
  simp only [u32OfBytes, u32Bytes, List.foldl]
  norm_num
  omega

/-- Reading a u32 off its own encoding (value reduced mod `2^32`). -/
theorem readU32_enc (n : Nat) (rest : List Nat) (t : TailK) :
    readU32 ⟨u32Bytes n ++ rest, t⟩ = .ok (n % 2 ^ 32, ⟨rest, t⟩) := by
  have h := readExact_exact (show (u32Bytes n).length = 4 from rfl) rest t
  rw [readU32, h]
  simp [Except.map, u32OfBytes_u32Bytes]

/-- Reading a u32 off the encoding of an in-range value. -/
theorem readU32_enc_lt {n : Nat} (h : n < 2 ^ 32) (rest : List Nat) (t : TailK) :
    readU32 ⟨u32Bytes n ++ rest, t⟩ = .ok (n, ⟨rest, t⟩) := by
  rw [readU32_enc, Nat.mod_eq_of_lt h]

/-- The resize helper always produces exactly `n` bytes. -/
theorem bytesResize_length (l : List Nat) (n : Nat) :
    (bytesResize l n).length = n := by
  simp [bytesResize]
  omega

/-- The device summary is always 312 bytes (spec §4.1). -/
theorem write_dev_length (d : UsbDevice) : (write_dev d).length = 312 := by
  simp [write_dev, bytesResize_length, u32Bytes, u16Bytes]

/-- A handler loop with remaining fuel returns `Ok(())` immediately on a
cleanly closed stream. -/
theorem handlerLoop_nil_eof (devs : List UsbDevice) (fuel : Nat)
    (imp : Option UsbDevice) :
    handlerLoop devs (fuel + 1) imp ⟨[], .eofTail⟩ = (.ok, []) := rfl

/-- The CMD_SUBMIT fixed part needs 44 bytes (nine u32 fields and the
8-byte setup); a stream holding fewer propagates the tail's error, at
whichever of the ten reads first overruns. -/
theorem parseSubmitHead_short (d : List Nat) (t : TailK) (h : d.length < 44) :
    parseSubmitHead ⟨d, t⟩ = .error (tailErr t) := by
  by_cases c1 : d.length < 4
  · simp [parseSubmitHead, readU32_short d t c1]
  by_cases c2 : d.length < 8
  · simp [parseSubmitHead, readU32_ok_of_le t (show 4 ≤ d.length by omega),
          readU32_short (d.drop 4) t (by simp; omega)]
  by_cases c3 : d.length < 12
  · simp [parseSubmitHead, readU32_ok_of_le t (show 4 ≤ d.length by omega),
          readU32_drop_ok d 4 t (by omega),
          readU32_short (d.drop 8) t (by simp; omega)]
  by_cases c4 : d.length < 16
  · simp [parseSubmitHead, readU32_ok_of_le t (show 4 ≤ d.length by omega),
          readU32_drop_ok d 4 t (by omega), readU32_drop_ok d 8 t (by omega),
          readU32_short (d.drop 12) t (by simp; omega)]
  by_cases c5 : d.length < 20
  · simp [parseSubmitHead, readU32_ok_of_le t (show 4 ≤ d.length by omega),
          readU32_drop_ok d 4 t (by omega), readU32_drop_ok d 8 t (by omega),
          readU32_drop_ok d 12 t (by omega),
          readU32_short (d.drop 16) t (by simp; omega)]
  by_cases c6 : d.length < 24
  · simp [parseSubmitHead, readU32_ok_of_le t (show 4 ≤ d.length by omega),
          readU32_drop_ok d 4 t (by omega), readU32_drop_ok d 8 t (by omega),
          readU32_drop_ok d 12 t (by omega), readU32_drop_ok d 16 t (by omega),
          readU32_short (d.drop 20) t (by simp; omega)]
  by_cases c7 : d.length < 28
  · simp [parseSubmitHead, readU32_ok_of_le t (show 4 ≤ d.length by omega),
          readU32_drop_ok d 4 t (by omega), readU32_drop_ok d 8 t (by omega),
          readU32_drop_ok d 12 t (by omega), readU32_drop_ok d 16 t (by omega),
          readU32_drop_ok d 20 t (by omega),
          readU32_short (d.drop 24) t (by simp; omega)]
  by_cases c8 : d.length < 32
  · simp [parseSubmitHead, readU32_ok_of_le t (show 4 ≤ d.length by omega),
          readU32_drop_ok d 4 t (by omega), readU32_drop_ok d 8 t (by omega),
          readU32_drop_ok d 12 t (by omega), readU32_drop_ok d 16 t (by omega),
          readU32_drop_ok d 20 t (by omega), readU32_drop_ok d 24 t (by omega),
          readU32_short (d.drop 28) t (by simp; omega)]
  by_cases c9 : d.length < 36
  · simp [parseSubmitHead, readU32_ok_of_le t (show 4 ≤ d.length by omega),
          readU32_drop_ok d 4 t (by omega), readU32_drop_ok d 8 t (by omega),
          readU32_drop_ok d 12 t (by omega), readU32_drop_ok d 16 t (by omega),
          readU32_drop_ok d 20 t (by omega), readU32_drop_ok d 24 t (by omega),
          readU32_drop_ok d 28 t (by omega),
          readU32_short (d.drop 32) t (by simp; omega)]
  · simp [parseSubmitHead, readU32_ok_of_le t (show 4 ≤ d.length by omega),
          readU32_drop_ok d 4 t (by omega), readU32_drop_ok d 8 t (by omega),
          readU32_drop_ok d 12 t (by omega), readU32_drop_ok d 16 t (by omega),
          readU32_drop_ok d 20 t (by omega), readU32_drop_ok d 24 t (by omega),
          readU32_drop_ok d 28 t (by omega), readU32_drop_ok d 32 t (by omega),
          readExact_short (d.drop 36) 8 t (by simp; omega)]

/-- The CMD_UNLINK body needs 44 bytes (five u32 fields and 24 reserved
bytes); a stream holding fewer makes the arm fail with the tail's error,
at whichever of the six reads first overruns. -/
theorem cmdUnlink_short (imp : Option UsbDevice) (d : List Nat) (t : TailK)
    (h : d.length < 44) :
    cmdUnlink imp ⟨d, t⟩ = .fail (tailErr t) := by
  by_cases c1 : d.length < 4
  · simp [cmdUnlink, readU32_short d t c1]
  by_cases c2 : d.length < 8
  · simp [cmdUnlink, readU32_ok_of_le t (show 4 ≤ d.length by omega),
          readU32_short (d.drop 4) t (by simp; omega)]
  by_cases c3 : d.length < 12
  · simp [cmdUnlink, readU32_ok_of_le t (show 4 ≤ d.length by omega),
          readU32_drop_ok d 4 t (by omega),
          readU32_short (d.drop 8) t (by simp; omega)]
  by_cases c4 : d.length < 16
  · simp [cmdUnlink, readU32_ok_of_le t (show 4 ≤ d.length by omega),
          readU32_drop_ok d 4 t (by omega), readU32_drop_ok d 8 t (by omega),
          readU32_short (d.drop 12) t (by simp; omega)]
  by_cases c5 : d.length < 20
  · simp [cmdUnlink, readU32_ok_of_le t (show 4 ≤ d.length by omega),
          readU32_drop_ok d 4 t (by omega), readU32_drop_ok d 8 t (by omega),
          readU32_drop_ok d 12 t (by omega),
          readU32_short (d.drop 16) t (by simp; omega)]
  · simp [cmdUnlink, readU32_ok_of_le t (show 4 ≤ d.length by omega),
          readU32_drop_ok d 4 t (by omega), readU32_drop_ok d 8 t (by omega),
          readU32_drop_ok d 12 t (by omega), readU32_drop_ok d 16 t (by omega),
          readExact_short (d.drop 20) 24 t (by simp; omega)]

/-!
Claim theorems.
-/

/-- C10: a CMD_SUBMIT packet arriving on a connection before any successful
OP_REQ_IMPORT makes the handler panic (the `current_import_device.unwrap()`
of `None` at lib.rs line 338) with no reply bytes written, instead of
returning an error result or an error reply. -/
theorem submit_before_import_panics
    (devs : List UsbDevice) (fuel : Nat)
    (seq_num dev_id direction ep flags tbl sf np iv : Nat)
    (setup rest : List Nat) (t : TailK)
    (hsetup : setup.length = 8) :
    handlerLoop devs (fuel + 1) none
      ⟨encSubmit seq_num dev_id direction ep flags tbl sf np iv setup ++ rest, t⟩
      = (.panicked, []) := by
  simp [handlerLoop, encSubmit, dispatch, cmdSubmit, parseSubmitHead,
        readExact_cons4, readU32_enc, readExact_exact hsetup]

/-- Witness for C10 at a concrete CMD_SUBMIT packet. -/
theorem submit_before_import_panics_witness :
    handlerLoop [] (0 + 1) none
      ⟨encSubmit 1 0 1 0 0 0 0 0 0 (List.replicate 8 0) ++ [], .eofTail⟩
      = (.panicked, []) :=
  submit_before_import_panics [] 0 1 0 1 0 0 0 0 0 0
    (List.replicate 8 0) [] .eofTail (by decide)

/-- C2 counterexample: after the unknown 4-byte command `09 09 09 09` the
handler does not terminate the connection: it reads the next command and
serves the following OP_REQ_DEVLIST with the 12-byte empty devlist reply. -/
theorem unknown_command_not_terminating :
    handlerLoop [] 3 none ⟨[0x09, 0x09, 0x09, 0x09] ++ encDevlist 0, .eofTail⟩
      = (.ok, devlistReply []) := by decide

/-- C2 amended: an unknown 4-byte command word is logged, its four bytes
are consumed, and the handler loop continues reading subsequent commands
from the rest of the stream rather than returning. -/
theorem unknown_command_continues
    (devs : List UsbDevice) (imp : Option UsbDevice) (fuel : Nat)
    (c0 c1 c2 c3 : Nat) (rest : List Nat) (t : TailK)
    (h5 : [c0, c1, c2, c3] ≠ [0x01, 0x11, 0x80, 0x05])
    (h3 : [c0, c1, c2, c3] ≠ [0x01, 0x11, 0x80, 0x03])
    (h1 : [c0, c1, c2, c3] ≠ [0x00, 0x00, 0x00, 0x01])
    (h2 : [c0, c1, c2, c3] ≠ [0x00, 0x00, 0x00, 0x02]) :
    handlerLoop devs (fuel + 1) imp ⟨c0 :: c1 :: c2 :: c3 :: rest, t⟩
      = handlerLoop devs fuel imp ⟨rest, t⟩ := by
  simp [handlerLoop, readExact_cons4, dispatch, h5, h3, h1, h2]

/-- Witness for the amended C2 at a concrete unknown command followed by a
DEVLIST request. -/
theorem unknown_command_continues_witness :
    handlerLoop [] (1 + 1) none ⟨9 :: 9 :: 9 :: 9 :: encDevlist 0, .eofTail⟩
      = handlerLoop [] 1 none ⟨encDevlist 0, .eofTail⟩ :=
  unknown_command_continues [] none 1 9 9 9 9 (encDevlist 0) .eofTail
    (by decide) (by decide) (by decide) (by decide)

/-- C9: a clean EOF while reading the 4-byte command word returns `Ok(())`;
a read error of any other kind there propagates as `Err`; and a stream
that ends (clean EOF or any error kind) at any position inside a packet
body — within the DEVLIST status field, within the IMPORT status or
32-byte bus_id fields, within the CMD_SUBMIT fixed fields or setup bytes,
within the CMD_UNLINK fields or reserved bytes, or within a truncated OUT
transfer payload — propagates as `Err` and terminates the connection. -/
theorem eof_on_command_boundary
    (devs : List UsbDevice) (imp : Option UsbDevice) (fuel : Nat)
    (d body : List Nat) (hd : d.length < 4) (k : Nat) (t : TailK) :
    handlerLoop devs (fuel + 1) imp ⟨d, .eofTail⟩ = (.ok, [])
    ∧ handlerLoop devs (fuel + 1) imp ⟨d, .errTail k⟩ = (.ioErr (.otherKind k), [])
    ∧ (body.length < 4 →
        handlerLoop devs (fuel + 1) imp ⟨[0x01, 0x11, 0x80, 0x05] ++ body, t⟩
          = (.ioErr (tailErr t), []))
    ∧ (body.length < 36 →
        handlerLoop devs (fuel + 1) imp ⟨[0x01, 0x11, 0x80, 0x03] ++ body, t⟩
          = (.ioErr (tailErr t), []))
    ∧ (body.length < 44 →
        handlerLoop devs (fuel + 1) imp ⟨[0x00, 0x00, 0x00, 0x01] ++ body, t⟩
          = (.ioErr (tailErr t), []))
    ∧ (body.length < 44 →
        handlerLoop devs (fuel + 1) imp ⟨[0x00, 0x00, 0x00, 0x02] ++ body, t⟩
          = (.ioErr (tailErr t), []))
    ∧ (∀ (dev : UsbDevice) (seq_num dev_id ep flags tbl sf np iv : Nat)
         (setup pay : List Nat),
        setup.length = 8 → tbl < 2 ^ 32 → pay.length < tbl →
        handlerLoop devs (fuel + 1) (some dev)
          ⟨encSubmit seq_num dev_id 0 ep flags tbl sf np iv setup ++ pay, t⟩
          = (.ioErr (tailErr t), [])) := by
  refine ⟨?_, ?_, ?_, ?_, ?_, ?_, ?_⟩
  · have h := readExact_short d 4 .eofTail hd
    simp [handlerLoop, h, tailErr]
  · have h := readExact_short d 4 (.errTail k) hd
    simp [handlerLoop, h, tailErr]
  · intro hb
    have h1 := readU32_short body t hb
    simp [handlerLoop, readExact_cons4, dispatch, h1]
  · intro hb
    by_cases h4 : 4 ≤ body.length
    · have e1 := readU32_ok_of_le t h4
      have e2 := readExact_short (body.drop 4) 32 t (by simp; omega)
      simp [handlerLoop, readExact_cons4, dispatch, e1, e2]
    · have h1 := readU32_short body t (by omega)
      simp [handlerLoop, readExact_cons4, dispatch, h1]
  · intro hb
    simp [handlerLoop, readExact_cons4, dispatch, cmdSubmit,
          parseSubmitHead_short body t hb]
  · intro hb
    simp [handlerLoop, readExact_cons4, dispatch, cmdUnlink_short imp body t hb]
  · intro dev seq_num dev_id ep flags tbl sf np iv setup pay hsetup htbl hpay
    simp [handlerLoop, encSubmit, dispatch, cmdSubmit, parseSubmitHead,
          readExact_cons4, readU32_enc, readU32_enc_lt htbl,
          readExact_exact hsetup, readExact_short pay tbl t hpay]

/-- Witness for C9 at a concrete one-byte prefix, a concrete one-byte body
for every command kind, and a concrete truncated OUT payload. -/
theorem eof_on_command_boundary_witness :
    handlerLoop [] (0 + 1) none ⟨[0x01], .eofTail⟩ = (.ok, [])
    ∧ handlerLoop [] (0 + 1) none ⟨[0x01], .errTail 0⟩ = (.ioErr (.otherKind 0), [])
    ∧ handlerLoop [] (0 + 1) none ⟨[0x01, 0x11, 0x80, 0x05] ++ [0], .eofTail⟩
        = (.ioErr (tailErr .eofTail), [])
    ∧ handlerLoop [] (0 + 1) none ⟨[0x01, 0x11, 0x80, 0x03] ++ [0], .eofTail⟩
        = (.ioErr (tailErr .eofTail), [])
    ∧ handlerLoop [] (0 + 1) none ⟨[0x00, 0x00, 0x00, 0x01] ++ [0], .eofTail⟩
        = (.ioErr (tailErr .eofTail), [])
    ∧ handlerLoop [] (0 + 1) none ⟨[0x00, 0x00, 0x00, 0x02] ++ [0], .eofTail⟩
        = (.ioErr (tailErr .eofTail), [])
    ∧ handlerLoop [] (0 + 1) (some sampleDev)
        ⟨encSubmit 1 0 0 0 0 5 0 0 0 (List.replicate 8 0) ++ [9], .eofTail⟩
        = (.ioErr (tailErr .eofTail), []) :=
  have h := eof_on_command_boundary [] none 0 [0x01] [0] (by decide) 0 .eofTail
  ⟨h.1, h.2.1, h.2.2.1 (by decide), h.2.2.2.1 (by decide), h.2.2.2.2.1 (by decide),
   h.2.2.2.2.2.1 (by decide),
   h.2.2.2.2.2.2 sampleDev 1 0 0 0 5 0 0 0 (List.replicate 8 0) [9]
     (by decide) (by decide) (by decide)⟩

/-- C8 counterexample: a CMD_UNLINK whose 24 reserved bytes are all `7`
gets a RET_UNLINK whose final 24 bytes are those same `7`s, not 24 zero
bytes: the handler writes the request's padding buffer back
(`socket.write_all(&mut padding)` at lib.rs line 420). -/
theorem unlink_padding_echoed :
    (handlerLoop [] 2 none ⟨encUnlink 9 0 0 0 5 (List.replicate 24 7), .eofTail⟩).2
      = u32Bytes 0x4 ++ u32Bytes 9 ++ u32Bytes 0 ++ u32Bytes 0 ++ u32Bytes 0 ++
        u32Bytes 0 ++ List.replicate 24 7
    ∧ List.replicate 24 (7 : Nat) ≠ List.replicate 24 0 := by decide

/-- C8 amended: CMD_UNLINK with sequence number N is answered by RET_UNLINK
with command `0x04`, seq_num N, three zero u32 fields, status 0, and then
the request's own 24 reserved bytes echoed back (which are zero bytes
exactly when the request's reserved bytes were zero). -/
theorem ret_unlink_reply
    (devs : List UsbDevice) (imp : Option UsbDevice) (fuel : Nat)
    (seq_num dev_id direction ep seq_sub : Nat) (pad : List Nat)
    (hseq : seq_num < 2 ^ 32) (hpad : pad.length = 24) :
    handlerLoop devs (fuel + 1 + 1) imp
      ⟨encUnlink seq_num dev_id direction ep seq_sub pad, .eofTail⟩
      = (.ok, u32Bytes 0x4 ++ u32Bytes seq_num ++ u32Bytes 0 ++ u32Bytes 0 ++
              u32Bytes 0 ++ u32Bytes 0 ++ pad) := by
  simp [handlerLoop, encUnlink, dispatch, cmdUnlink, readExact_cons4,
        readU32_enc, readU32_enc_lt hseq, readExact_all hpad,
        readExact4_nil_eof]

/-- Witness for the amended C8 at a concrete CMD_UNLINK with nonzero
reserved bytes. -/
theorem ret_unlink_reply_witness :
    handlerLoop [] (0 + 1 + 1) none ⟨encUnlink 9 0 0 0 5 (List.replicate 24 7), .eofTail⟩
      = (.ok, u32Bytes 0x4 ++ u32Bytes 9 ++ u32Bytes 0 ++ u32Bytes 0 ++
              u32Bytes 0 ++ u32Bytes 0 ++ List.replicate 24 7) :=
  ret_unlink_reply [] none 0 9 0 0 0 5 (List.replicate 24 7) (by decide) (by decide)

/-- C1 counterexample: with `sampleDev` imported, a CMD_SUBMIT addressing
endpoint 5 (OUT), which no interface owns, makes the handler panic (the
`device.find_ep(real_ep as u8).unwrap()` of `None` at lib.rs line 351)
with no RET_SUBMIT written: the output holds only the earlier import reply
and the connection does not continue. -/
theorem submit_unknown_ep_counterexample :
    handlerLoop [sampleDev] 3 none
      ⟨encImport 0 (bytesResize [0x30] 32) ++
       encSubmit 1 0 0 5 0 0 0 0 0 (List.replicate 8 0), .eofTail⟩
      = (.panicked, u32Bytes 0x01110003 ++ u32Bytes 0 ++ write_dev sampleDev) := by
  decide

/-- C1 amended: a CMD_SUBMIT whose canonical endpoint address (`ep` for
OUT, `ep | 0x80` for IN, truncated to u8) is not found in the imported
device makes the handler panic with no reply bytes, rather than emitting a
RET_SUBMIT with nonzero status and continuing. -/
theorem submit_unknown_ep_panics
    (devs : List UsbDevice) (dev : UsbDevice) (fuel : Nat)
    (seq_num dev_id direction ep flags tbl sf np iv : Nat)
    (setup data rest : List Nat) (t : TailK)
    (hsetup : setup.length = 8)
    (hep : ep < 2 ^ 32) (htbl : tbl < 2 ^ 32)
    (hdir : direction = 0 ∨ direction = 1)
    (hdata : data.length = if direction = 0 then tbl else 0)
    (hfind : dev.find_ep ((if direction = 0 then ep else ep ||| 0x80) % 256) = none) :
    handlerLoop devs (fuel + 1) (some dev)
      ⟨encSubmit seq_num dev_id direction ep flags tbl sf np iv setup ++ data ++ rest, t⟩
      = (.panicked, []) := by
  rcases hdir with rfl | rfl
  · have hd : data.length = tbl := by simpa using hdata
    norm_num at hfind
    simp [handlerLoop, encSubmit, dispatch, cmdSubmit, parseSubmitHead,
          readExact_cons4, readU32_enc, readU32_enc_lt hep, readU32_enc_lt htbl,
          readExact_exact hsetup, readExact_exact hd, hfind]
  · have hd : data = [] := by simpa using hdata
    subst hd
    norm_num at hfind
    simp [handlerLoop, encSubmit, dispatch, cmdSubmit, parseSubmitHead,
          readExact_cons4, readU32_enc, readU32_enc_lt hep,
          readExact_exact hsetup, hfind]

/-- Witness for the amended C1 at a concrete IN CMD_SUBMIT to the unowned
endpoint address `0x85`. -/
theorem submit_unknown_ep_panics_witness :
    handlerLoop [sampleDev] (0 + 1) (some sampleDev)
      ⟨encSubmit 1 0 1 5 0 0 0 0 0 (List.replicate 8 0) ++ [] ++ [], .eofTail⟩
      = (.panicked, []) :=
  submit_unknown_ep_panics [sampleDev] sampleDev 0 1 0 1 5 0 0 0 0 0
    (List.replicate 8 0) [] [] .eofTail (by decide) (by decide) (by decide)
    (Or.inr rfl) (by decide) (by rfl)

/-- C4: an OP_REQ_IMPORT whose 32-byte bus_id field matches a registered
device (bytewise, against the device's bus_id truncated or right-zero-
padded to 32 bytes, first match taken) is answered with the 8-byte
OP_REP_IMPORT header `01 11 00 03` + status 0 followed by the 312-byte
device summary — `0x140` bytes in total. -/
theorem import_hit_reply
    (devs : List UsbDevice) (dev : UsbDevice) (fuel status : Nat) (busid : List Nat)
    (hlen : busid.length = 32)
    (hfind : devs.find? (busMatch busid) = some dev) :
    handlerLoop devs (fuel + 1 + 1) none ⟨encImport status busid, .eofTail⟩
      = (.ok, u32Bytes 0x01110003 ++ u32Bytes 0 ++ write_dev dev)
    ∧ u32Bytes 0x01110003 = [0x01, 0x11, 0x00, 0x03]
    ∧ (u32Bytes 0x01110003 ++ u32Bytes 0 ++ write_dev dev).length = 0x140 := by
  refine ⟨?_, by decide, ?_⟩
  · simp [handlerLoop, encImport, dispatch, readExact_cons4, readU32_enc,
          readExact_all hlen, hfind, readExact4_nil_eof]
  · simp [u32Bytes, write_dev_length dev]

/-- Witness for C4: importing bus_id `"0"` (padded to 32 bytes) from a
one-device list. -/
theorem import_hit_reply_witness :
    handlerLoop [sampleDev] (0 + 1 + 1) none
      ⟨encImport 0 (bytesResize [0x30] 32), .eofTail⟩
      = (.ok, u32Bytes 0x01110003 ++ u32Bytes 0 ++ write_dev sampleDev)
    ∧ u32Bytes 0x01110003 = [0x01, 0x11, 0x00, 0x03]
    ∧ (u32Bytes 0x01110003 ++ u32Bytes 0 ++ write_dev sampleDev).length = 0x140 :=
  import_hit_reply [sampleDev] sampleDev 0 0 (bytesResize [0x30] 32)
    (by decide) (by rfl)

/-- C5: an OP_REQ_IMPORT whose 32-byte bus_id matches no registered device
is answered with OP_REP_IMPORT status 1 and no device summary, the
recorded import is cleared, and the connection keeps serving the rest of
the stream (so subsequent DEVLIST and IMPORT requests are still served). -/
theorem import_miss_continues
    (devs : List UsbDevice) (imp : Option UsbDevice) (fuel status : Nat)
    (busid rest : List Nat) (t : TailK)
    (hlen : busid.length = 32)
    (hfind : devs.find? (busMatch busid) = none) :
    handlerLoop devs (fuel + 1) imp ⟨encImport status busid ++ rest, t⟩
      = ((handlerLoop devs fuel none ⟨rest, t⟩).1,
         (u32Bytes 0x01110003 ++ u32Bytes 1) ++ (handlerLoop devs fuel none ⟨rest, t⟩).2) := by
  simp [handlerLoop, encImport, dispatch, readExact_cons4, readU32_enc,
        readExact_exact hlen, hfind]

/-- Witness for C5: a missing bus_id `"2"` followed by a DEVLIST request
that is still served. -/
theorem import_miss_continues_witness :
    handlerLoop [sampleDev] (1 + 1) none
      ⟨encImport 0 (bytesResize [0x32] 32) ++ encDevlist 0, .eofTail⟩
      = ((handlerLoop [sampleDev] 1 none ⟨encDevlist 0, .eofTail⟩).1,
         (u32Bytes 0x01110003 ++ u32Bytes 1) ++
         (handlerLoop [sampleDev] 1 none ⟨encDevlist 0, .eofTail⟩).2) :=
  import_miss_continues [sampleDev] none 1 0 (bytesResize [0x32] 32)
    (encDevlist 0) .eofTail (by decide) (by rfl)

/-- C3: a CMD_SUBMIT dispatched successfully to a found endpoint is
answered by a RET_SUBMIT carrying command `0x03`, the request's seq_num,
dev_id/direction/ep written as zero, status 0, actual_length equal to
transfer_buffer_length for OUT and to the handler response length for IN,
start_frame / number_of_packets / error_count zero, 8 reserved zero bytes,
and the response payload appended exactly when the direction is IN (its
length then equals actual_length). -/
theorem ret_submit_reply
    (devs : List UsbDevice) (dev : UsbDevice) (e : UsbEndpoint) (oi : Option Nat)
    (fuel seq_num dev_id direction ep flags tbl sf np iv : Nat)
    (setup data resp : List Nat)
    (hsetup : setup.length = 8)
    (hseq : seq_num < 2 ^ 32) (hep : ep < 2 ^ 32) (htbl : tbl < 2 ^ 32)
    (hdir : direction = 0 ∨ direction = 1)
    (hdata : data.length = if direction = 0 then tbl else 0)
    (hfind : dev.find_ep ((if direction = 0 then ep else ep ||| 0x80) % 256) = some (e, oi))
    (hurb : dev.urb e oi setup data = .ok resp) :
    handlerLoop devs (fuel + 1 + 1) (some dev)
      ⟨encSubmit seq_num dev_id direction ep flags tbl sf np iv setup ++ data, .eofTail⟩
      = (.ok,
         u32Bytes 0x3 ++ u32Bytes seq_num ++ u32Bytes 0 ++ u32Bytes 0 ++ u32Bytes 0 ++
         u32Bytes 0 ++ u32Bytes (if direction = 0 then tbl else resp.length) ++
         u32Bytes 0 ++ u32Bytes 0 ++ u32Bytes 0 ++ List.replicate 8 0 ++
         (if direction = 0 then [] else resp)) := by
  rcases hdir with rfl | rfl
  · have hd : data.length = tbl := by simpa using hdata
    norm_num at hfind ⊢
    simp [handlerLoop, encSubmit, dispatch, cmdSubmit, parseSubmitHead,
          readExact_cons4, readU32_enc, readU32_enc_lt hseq, readU32_enc_lt hep,
          readU32_enc_lt htbl, readExact_exact hsetup, readExact_all hd,
          hfind, hurb, readExact4_nil_eof]
  · have hd : data = [] := by simpa using hdata
    subst hd
    norm_num at hfind ⊢
    simp [handlerLoop, encSubmit, dispatch, cmdSubmit, parseSubmitHead,
          readExact_cons4, readU32_enc, readU32_enc_lt hseq, readU32_enc_lt hep,
          readU32_enc_lt htbl, readExact_exact hsetup, readExact_all hsetup,
          hfind, hurb, readExact4_nil_eof]

/-- Witness for C3 at a concrete IN CMD_SUBMIT to `sampleDev`'s bulk IN
endpoint `0x81`, whose handler answers `[1, 2, 3]`. -/
theorem ret_submit_reply_witness :
    handlerLoop [sampleDev] (0 + 1 + 1) (some sampleDev)
      ⟨encSubmit 1 0 1 1 0 0 0 0 0 (List.replicate 8 0) ++ [], .eofTail⟩
      = (.ok,
         u32Bytes 0x3 ++ u32Bytes 1 ++ u32Bytes 0 ++ u32Bytes 0 ++ u32Bytes 0 ++
         u32Bytes 0 ++ u32Bytes (if (1 : Nat) = 0 then 0 else [1, 2, 3].length) ++
         u32Bytes 0 ++ u32Bytes 0 ++ u32Bytes 0 ++ List.replicate 8 0 ++
         (if (1 : Nat) = 0 then [] else [1, 2, 3])) :=
  ret_submit_reply [sampleDev] sampleDev ⟨0x81, 2, 64, 0⟩ (some 0) 0 1 0 1 1 0 0 0 0 0
    (List.replicate 8 0) [] [1, 2, 3] (by decide) (by decide) (by decide) (by decide)
    (Or.inr rfl) (by decide) (by rfl) (by rfl)

/-- C6 counterexample: `add_device` pushes unconditionally (no duplicate
check, lib.rs line 243), so adding a second device with the already-present
bus_id `"0"` leaves the device list with duplicated bus_ids instead of
failing — the uniqueness invariant is not preserved. -/
theorem add_device_duplicate_counterexample :
    ¬ uniqueBusIds (add_device (add_device [] sampleDev) sampleDevDup) := by
  unfold uniqueBusIds
  decide

/-- C6 amended: `remove_device` always preserves bus_id uniqueness and is a
no-op when no device carries the removed bus_id; `add_device` appends
unconditionally, so it preserves uniqueness exactly on bus_ids not already
present (a duplicate bus_id is appended, not rejected). -/
theorem busid_uniqueness
    (l : List UsbDevice) (d : UsbDevice) (b : List Nat)
    (h : uniqueBusIds l) :
    uniqueBusIds (remove_device l b)
    ∧ (d.bus_id ∉ busIds l → uniqueBusIds (add_device l d))
    ∧ ((∀ x ∈ l, x.bus_id ≠ b) → remove_device l b = l) := by
  refine ⟨?_, ?_, ?_⟩
  · exact List.Nodup.sublist (List.Sublist.map _ (List.filter_sublist l)) h
  · intro hd
    have hb : busIds (add_device l d) = busIds l ++ [d.bus_id] := by
      simp [busIds, add_device]
    rw [uniqueBusIds, hb, List.nodup_append]
    refine ⟨h, List.nodup_singleton _, ?_⟩
    intro a ha hb2
    rw [List.mem_singleton] at hb2
    subst hb2
    exact hd ha
  · intro hb
    apply List.filter_eq_self.mpr
    intro x hx
    simp [hb x hx]

/-- Witness for the amended C6 on a concrete one-device list: removing the
absent bus_id `"2"` and adding the fresh bus_id `"1"`. -/
theorem busid_uniqueness_witness :
    uniqueBusIds (remove_device [sampleDev] [0x32])
    ∧ (sampleDevOther.bus_id ∉ busIds [sampleDev] →
        uniqueBusIds (add_device [sampleDev] sampleDevOther))
    ∧ ((∀ x ∈ [sampleDev], x.bus_id ≠ [0x32]) →
        remove_device [sampleDev] [0x32] = [sampleDev]) :=
  busid_uniqueness [sampleDev] sampleDevOther [0x32] (by unfold uniqueBusIds; decide)

/-- C7: quiescence fails on the code.  A `new_simulated` (default) server
has a `control_barrier` of size 1, so `add_device`'s `pause_sockets` passes
the barrier with its own single arrival and mutates the device list while
a live connection — which sampled the pause signal before it was raised —
goes on to read its next command.  The schedule below is a valid
interleaving of the two tasks in which the connection's command read lands
while the mutator is between the barrier and the resume (`mutPC = 3`, the
`devices.push`): the claim's "no connection reads a new command during a
mutation" is violated, contradicting `add_device`'s own doc comment
("temporarily block all socket communication"). -/
theorem quiescence_violation :
    (runSched [.conn, .mutator, .mutator, .mutator, .conn] pauseInit).readsDuringMut = 1
    ∧ (runSched [.conn, .mutator, .mutator, .mutator] pauseInit).mutPC = 3
    ∧ (runSched [.conn, .mutator, .mutator, .mutator] pauseInit).connPC = 4
    ∧ (runSched [.conn, .mutator, .mutator, .mutator] pauseInit).signal = true := by
  decide

end UsbIp
